import Mathlib

/-!
Verification of the FusionBrain API TypeScript client library.

The development shallowly embeds the parts of the library the claims are
about: the JSON data model crossing the HTTP boundary, the boundary
validators (`Task.create`, `ModelInfo.create`), the task lifecycle
predicates (`isFinished`, `isCensored`, `isSuccess`), the error taxonomy
(`FusionBrainError` and its factories) and the per-operation outcome and
error-classification logic of the `FusionBrain` facade (`generate`,
`checkTask`, `isReady`, `getModels`, `getStyles`).

JavaScript values decoded from response bodies are modelled by the
inductive `Json`; property access `obj.key` is modelled by `jget`, which
returns `none` for an absent key (JavaScript `undefined`).  The runtime
`TypeError` raised by the `in` operator on a primitive value is modelled
by a dedicated error branch of each validator.  `JSON.stringify` is
modelled by `Json.stringify`.
-/

namespace FusionBrainApi

/-- A JavaScript value decoded from a JSON response body. -/
inductive Json where
  | null : Json
  | bool : Bool → Json
  | num : Int → Json
  | str : String → Json
  | arr : List Json → Json
  | obj : List (String × Json) → Json
deriving Repr

/-- `typeof v === "string"` on a JavaScript value. -/
def Json.isStr : Json → Bool
  | .str _ => true
  | _ => false

/-- First binding of `key` in a JavaScript object literal. -/
def lookupField : List (String × Json) → String → Option Json
  | [], _ => none
  | (k, v) :: rest, key => if k = key then some v else lookupField rest key

/-- Property access `j.key`: `none` models JavaScript `undefined`.
On an array, a non-index key such as `"uuid"` reads as `undefined`. -/
def jget : Json → String → Option Json
  | .obj fs, key => lookupField fs key
  | _, _ => none

/-- Extract a JavaScript string (`typeof == "string"` check plus read). -/
def jStr? : Option Json → Option String
  | some (.str s) => some s
  | _ => none

/-- Extract a JavaScript number (`typeof == "number"` check plus read). -/
def jNum? : Option Json → Option Int
  | some (.num n) => some n
  | _ => none

/-- Extract a JavaScript boolean (`typeof == "boolean"` check plus read). -/
def jBool? : Option Json → Option Bool
  | some (.bool b) => some b
  | _ => none

/-- The apostrophe character, used in several literal error messages. -/
def apos : String := String.singleton (Char.ofNat 39)

/-- Escaping of one character inside a JSON string literal,
as produced by `JSON.stringify`. -/
def jsEscapeChar (c : Char) : String :=
  if c = Char.ofNat 34 then "\\\""
  else if c = Char.ofNat 92 then "\\\\"
  else if c = Char.ofNat 10 then "\\n"
  else if c = Char.ofNat 13 then "\\r"
  else if c = Char.ofNat 9 then "\\t"
  else String.singleton c

/-- A JSON string literal with its quotes, as produced by `JSON.stringify`. -/
def jsQuote (s : String) : String :=
  "\"" ++ String.join (s.toList.map jsEscapeChar) ++ "\""

mutual

/-- Model of `JSON.stringify` on a decoded JavaScript value. -/
def Json.stringify : Json → String
  | .null => "null"
  | .bool true => "true"
  | .bool false => "false"
  | .num n => toString n
  | .str s => jsQuote s
  | .arr xs => "[" ++ stringifyElems xs ++ "]"
  | .obj fs => "\x7b" ++ stringifyFields fs ++ "\x7d"

/-- Comma-separated rendering of array elements. -/
def stringifyElems : List Json → String
  | [] => ""
  | [x] => Json.stringify x
  | x :: y :: rest => Json.stringify x ++ "," ++ stringifyElems (y :: rest)

/-- Comma-separated rendering of object members. -/
def stringifyFields : List (String × Json) → String
  | [] => ""
  | [(k, v)] => jsQuote k ++ ":" ++ Json.stringify v
  | (k, v) :: f :: rest =>
      jsQuote k ++ ":" ++ Json.stringify v ++ "," ++ stringifyFields (f :: rest)

end

/-- The `TypeError` message raised by the JavaScript `in` operator when the
validators probe a primitive (non-object) response body. -/
def inOperatorError (key : String) (j : Json) : String :=
  "TypeError: Cannot use " ++ apos ++ "in" ++ apos ++ " operator to search for "
    ++ apos ++ key ++ apos ++ " in " ++ Json.stringify j

/-- The `Task` entity of `src/response_entities/Task.ts`: an immutable
snapshot of one remote generation job.  The `images` array is declared
`string[]` in TypeScript but at runtime holds whatever array the response
carried (only element 0 is type-checked by `Task.create`), so it is
modelled as a list of arbitrary JavaScript values.  `none` models an
`undefined` optional field. -/
structure Task where
  uuid : String
  status : String
  images : Option (List Json)
  errorDescription : Option String
  censored : Option Bool
  generationTime : Option Int
deriving Repr

/-- `Task.INITIAL` status constant. -/
def Task.INITIAL : String := "INITIAL"

/-- `Task.PROCESSING` status constant. -/
def Task.PROCESSING : String := "PROCESSING"

/-- `Task.DONE` status constant. -/
def Task.DONE : String := "DONE"

/-- `Task.FAIL` status constant. -/
def Task.FAIL : String := "FAIL"

/-- `Task.isFinished`: `this.status == Task.DONE || this.status == Task.FAIL`. -/
def Task.isFinished (t : Task) : Bool :=
  t.status == Task.DONE || t.status == Task.FAIL

/-- `Task.isCensored`: `this.isFinished() && this.censored == true`
(JavaScript loose equality: `undefined == true` and `false == true` are
both false, so only an explicitly `true` flag passes). -/
def Task.isCensored (t : Task) : Bool :=
  t.isFinished && t.censored == some true

/-- `Task.isSuccess`: status `DONE`, not censored, `images` defined, and
then `this.images.length > 0`. -/
def Task.isSuccess (t : Task) : Bool :=
  let done := t.status == Task.DONE
  let notCensored := !t.isCensored
  let gotImages := t.images.isSome
  if done && notCensored && gotImages then
    decide (0 < (t.images.getD []).length)
  else false

/-- The `TypeError` message of `Task.create` after `.trim()`, marking each
of the two required fields as found or missing. -/
def taskCreateErrMsg (uuidOk statusOk : Bool) : String :=
  "Task.create: passed object doesn" ++ apos ++ "t match required structure:\n"
    ++ "uuid (string) - " ++ (if uuidOk then "found" else "missing") ++ "\n"
    ++ "status (string) - " ++ (if statusOk then "found" else "missing")

/-- The images-extraction step of `Task.create`: if `"images" in jsonObject`,
the array is kept verbatim when it is an array, non-empty, and its element
at index 0 is a string; otherwise the field stays `undefined`. -/
def taskImagesField (j : Json) : Option (List Json) :=
  match jget j "images" with
  | some (.arr (x :: xs)) => if x.isStr then some (x :: xs) else none
  | _ => none

/-- The body of `Task.create` once the `in` operator is known not to throw:
check `uuid` and `status` (presence and string type), then fill the
optional fields leniently. -/
def Task.createChecked (j : Json) : Except String Task :=
  match jStr? (jget j "uuid"), jStr? (jget j "status") with
  | some u, some s =>
      .ok { uuid := u,
            status := s,
            images := taskImagesField j,
            errorDescription := jStr? (jget j "errorDescription"),
            censored := jBool? (jget j "censored"),
            generationTime := jNum? (jget j "generationTime") }
  | ou, os => .error (taskCreateErrMsg ou.isSome os.isSome)

/-- `Task.create` of `src/response_entities/Task.ts`: boundary validation of
a decoded response body.  A thrown `TypeError` is modelled as
`Except.error` carrying the message.  On a primitive body the JavaScript
`in` operator itself throws, modelled by the last branch. -/
def Task.create (j : Json) : Except String Task :=
  match j with
  | .obj _ | .arr _ => Task.createChecked j
  | other => .error (inOperatorError "uuid" other)

/-- The `Generation` union type of `src/other_types.ts`: outcome of a
generation submission, either accepted with a task or rejected with a
reason string. -/
inductive Generation where
  | accepted (task : Task) : Generation
  | rejected (reason : String) : Generation
deriving Repr

/-- The response-handling step of `FusionBrain.generate` on a successful
HTTP exchange (lines 124-134 of `FusionBrain.ts`): try `Task.create` on
the body; any throw is reinterpreted as the rejection outcome carrying the
serialized body. -/
def generateOutcome (body : Json) : Generation :=
  match Task.create body with
  | .ok t => .accepted t
  | .error _ => .rejected (Json.stringify body)

/-- The part of an axios HTTP response an error handler inspects. -/
structure AxiosResponse where
  status : Nat
  data : Json
deriving Repr

/-- An `AxiosError`: transport failure, possibly carrying an HTTP
response.  `response = none` models a network error without a response
(`err.response?.status` reads as `undefined`). -/
structure AxiosError where
  message : String
  response : Option AxiosResponse
  stack : String
deriving Repr

/-- The `FusionBrainErrorCode` enum of `src/FusionBrainError.ts`. -/
inductive FusionBrainErrorCode where
  | EXPIRED : FusionBrainErrorCode
  | UNAUTHORIZED : FusionBrainErrorCode
  | LONG_PROMPT_OR_BAD_REQUEST : FusionBrainErrorCode
  | MODEL_NOT_READY : FusionBrainErrorCode
  | UNSUPPORTED_MEDIA : FusionBrainErrorCode
  | UNEXPECTED : FusionBrainErrorCode
deriving Repr, DecidableEq

/-- The `FusionBrainError` class: message, error kind, optional response
body, and for `unexpected` the appended `Caused by:` stack reference
(modelled by `causedBy`). -/
structure FusionBrainError where
  message : String
  code : FusionBrainErrorCode
  body : Option String
  causedBy : Option String
deriving Repr

/-- `FusionBrainError.unexpected`: message interpolates the method name,
the transport error message and the serialized response body
(`JSON.stringify(undefined)` renders as `undefined` in the template);
`body` is the serialized response body when a response exists; the
underlying stack is chained on via `Caused by:`. -/
def FusionBrainError.unexpected (methodName : String) (err : AxiosError) : FusionBrainError :=
  { message := methodName ++ ": " ++ err.message ++ ":\n"
      ++ (match err.response with | some r => Json.stringify r.data | none => "undefined"),
    code := .UNEXPECTED,
    body := err.response.map (fun r => Json.stringify r.data),
    causedBy := some err.stack }

/-- `FusionBrainError.unauthorized`. -/
def FusionBrainError.unauthorized (methodName : String) : FusionBrainError :=
  { message := methodName ++ ": Request failed with Unauthorized error. Ensure you"
      ++ apos ++ "ve provided correct api and secret keys.",
    code := .UNAUTHORIZED, body := none, causedBy := none }

/-- `FusionBrainError.taskExpired`. -/
def FusionBrainError.taskExpired (methodName : String) : FusionBrainError :=
  { message := methodName ++ ": task is expired and removed already",
    code := .EXPIRED, body := none, causedBy := none }

/-- `FusionBrainError.tooLongPromptsOrBadRequest`. -/
def FusionBrainError.tooLongPromptsOrBadRequest (methodName : String) : FusionBrainError :=
  { message := methodName ++ ": most likely prompt (+ negative prompt) are too long. If they"
      ++ apos ++ "re short, then this error may mean that API changed and library needs for update",
    code := .LONG_PROMPT_OR_BAD_REQUEST, body := none, causedBy := none }

/-- `FusionBrainError.unsupportedMedia`. -/
def FusionBrainError.unsupportedMedia (methodName : String) : FusionBrainError :=
  { message := methodName ++ ": Seems like API changed and library needs for update",
    code := .UNSUPPORTED_MEDIA, body := none, causedBy := none }

/-- `FusionBrainError.modelNotReady`: carries the HTTP body from which the
not-ready state was detected. -/
def FusionBrainError.modelNotReady (methodName : String) (body : String) : FusionBrainError :=
  { message := methodName ++ ": requested model is not ready for usage now. See `body` field for details",
    code := .MODEL_NOT_READY, body := some body, causedBy := none }

/-- The catch block of `FusionBrain.generate` on an `AxiosError`:
`switch(err.response?.status)` with cases 400, 401, 415 and a default. -/
def generateHandleError (err : AxiosError) : FusionBrainError :=
  match err.response with
  | some r =>
      if r.status = 400 then .tooLongPromptsOrBadRequest "FusionBrain.generate"
      else if r.status = 401 then .unauthorized "FusionBrain.generate"
      else if r.status = 415 then .unsupportedMedia "FusionBrain.generate"
      else .unexpected "FusionBrain.generate" err
  | none => .unexpected "FusionBrain.generate" err

/-- The catch block of `FusionBrain.checkTask` on an `AxiosError`:
cases 401 (unauthorized) and 404 (task expired), default unexpected. -/
def checkTaskHandleError (err : AxiosError) : FusionBrainError :=
  match err.response with
  | some r =>
      if r.status = 401 then .unauthorized "FusionBrain.checkTask"
      else if r.status = 404 then .taskExpired "FusionBrain.checkTask"
      else .unexpected "FusionBrain.checkTask" err
  | none => .unexpected "FusionBrain.checkTask" err

/-- The catch block of `FusionBrain.isReady` on an `AxiosError`.  The
literal method name passed by the source is `"FusionBrain.checkModel"`. -/
def isReadyHandleError (err : AxiosError) : FusionBrainError :=
  match err.response with
  | some r =>
      if r.status = 401 then .unauthorized "FusionBrain.checkModel"
      else .unexpected "FusionBrain.checkModel" err
  | none => .unexpected "FusionBrain.checkModel" err

/-- The catch block of `FusionBrain.getModels` on an `AxiosError`.  The
literal method name passed by the source is `"FusionBrain.checkModel"`
(lines 225-234 of `FusionBrain.ts`), not `"FusionBrain.getModels"`. -/
def getModelsHandleError (err : AxiosError) : FusionBrainError :=
  match err.response with
  | some r =>
      if r.status = 401 then .unauthorized "FusionBrain.checkModel"
      else .unexpected "FusionBrain.checkModel" err
  | none => .unexpected "FusionBrain.checkModel" err

/-- The catch block of `FusionBrain.getStyles` on an `AxiosError`: always
unexpected, and the literal method name passed by the source is
`"FusionBrain.checkModel"` (lines 199-204 of `FusionBrain.ts`), not
`"FusionBrain.getStyles"`. -/
def getStylesHandleError (err : AxiosError) : FusionBrainError :=
  FusionBrainError.unexpected "FusionBrain.checkModel" err

/-- `("status" in response.data) && (response.data.status === "ACTIVE")`. -/
def statusActive (data : Json) : Bool :=
  match jget data "status" with
  | some (.str s) => s == "ACTIVE"
  | _ => false

/-- `("model_status" in response.data) && (response.data.model_status === "ACTIVE")`. -/
def modelStatusActive (data : Json) : Bool :=
  match jget data "model_status" with
  | some (.str s) => s == "ACTIVE"
  | _ => false

/-- What a call to `FusionBrain.isReady` does with a successful HTTP
response: return a boolean, raise a `FusionBrainError`, or raise a plain
JavaScript error. -/
inductive ReadyOutcome where
  | result (b : Bool) : ReadyOutcome
  | fbError (e : FusionBrainError) : ReadyOutcome
  | jsError (msg : String) : ReadyOutcome
deriving Repr

/-- The response handling of `FusionBrain.isReady` once the `in` operator
is known not to throw: true when either status field is ACTIVE, otherwise
`modelNotReady` when `verbose_false` is set, else false.  The thrown
`modelNotReady` error passes through the catch block unchanged (it is not
an `AxiosError`). -/
def isReadyCore (data : Json) (verboseFalse : Bool) : ReadyOutcome :=
  if statusActive data || modelStatusActive data then .result true
  else if verboseFalse then
    .fbError (FusionBrainError.modelNotReady "FusionBrain.checkModel" (Json.stringify data))
  else .result false

/-- The response handling of `FusionBrain.isReady` over any decoded body;
a primitive body makes the `in` operator throw. -/
def isReadyOutcome (data : Json) (verboseFalse : Bool) : ReadyOutcome :=
  match data with
  | .obj _ | .arr _ => isReadyCore data verboseFalse
  | other => .jsError (inOperatorError "status" other)

/-- The `ModelInfo` catalogue entry.  The TypeScript attribute `version`
is declared `number`, but the factory passes `jsonObject.number`, which is
`undefined` whenever the input has no `number` key; the field is therefore
modelled as the raw JavaScript value it receives. -/
structure ModelInfo where
  id : Int
  name : String
  version : Option Json
  type : String
deriving Repr

/-- The `TypeError` message of `ModelInfo.create` after `.trim()`. -/
def modelInfoErrMsg (idOk nameOk versionOk typeOk : Bool) : String :=
  "ModelInfo.create: passed object doesn" ++ apos ++ "t match required structure:\n"
    ++ "id (number) - " ++ (if idOk then "found" else "missing") ++ "\n"
    ++ "name (string) - " ++ (if nameOk then "found" else "missing") ++ "\n"
    ++ "version (number) - " ++ (if versionOk then "found" else "missing") ++ "\n"
    ++ "type (string) - " ++ (if typeOk then "found" else "missing")

/-- The body of `ModelInfo.create` once the `in` operator is known not to
throw: validate numeric `id`, string `name`, numeric `version`, string
`type`; on success construct the entry — passing `jsonObject.number` (not
`jsonObject.version`) as the `version` attribute, exactly as the source
does on line 46 of `ModelInfo.ts`. -/
def ModelInfo.createChecked (j : Json) : Except String ModelInfo :=
  match jNum? (jget j "id"), jStr? (jget j "name"),
        jNum? (jget j "version"), jStr? (jget j "type") with
  | some i, some n, some _, some ty =>
      .ok { id := i, name := n, version := jget j "number", type := ty }
  | oi, onm, ov, ot => .error (modelInfoErrMsg oi.isSome onm.isSome ov.isSome ot.isSome)

/-- `ModelInfo.create`: boundary validation of one catalogue entry. -/
def ModelInfo.create (j : Json) : Except String ModelInfo :=
  match j with
  | .obj _ | .arr _ => ModelInfo.createChecked j
  | other => .error (inOperatorError "id" other)

/-- `p` is a prefix of `s`, by character comparison; used to state which
method name an error message carries. -/
def charsPfx : List Char → List Char → Bool
  | [], _ => true
  | _ :: _, [] => false
  | a :: as, b :: bs => a == b && charsPfx as bs

/-- String prefix test on the underlying character lists. -/
def strPfx (p s : String) : Bool := charsPfx p.toList s.toList

/-- A concrete transport error, parameterised by an optional HTTP status,
used by the witnesses. -/
def sampleAxiosError : Option Nat → AxiosError
  | some s =>
      { message := "Request failed with status code " ++ toString s,
        response := some { status := s, data := Json.null },
        stack := "AxiosError: stack" }
  | none => { message := "Network Error", response := none, stack := "AxiosError: stack" }

/-- Claim C1: for every Task snapshot, `isSuccess` returns true iff the
status string equals `"DONE"`, the censored field is not `true`, and the
images sequence is present and non-empty; consequently `isSuccess` implies
`isFinished` and implies not `isCensored`. -/
theorem task_isSuccess_spec (t : Task) :
    (t.isSuccess = true ↔
      t.status = "DONE" ∧ t.censored ≠ some true ∧ ∃ l, t.images = some l ∧ l ≠ []) ∧
    (t.isSuccess = true → t.isFinished = true ∧ t.isCensored = false) := by
  obtain ⟨u, s, imgs, e, c, g⟩ := t
  have main : (Task.isSuccess ⟨u, s, imgs, e, c, g⟩ = true ↔
      s = "DONE" ∧ c ≠ some true ∧ ∃ l, imgs = some l ∧ l ≠ []) := by
    simp only [Task.isSuccess, Task.isCensored, Task.isFinished, Task.DONE, Task.FAIL]
    by_cases hd : s = "DONE"
    · subst hd
      rcases c with _ | cb
      · rcases imgs with _ | l <;> simp [List.length_pos]
      · rcases imgs with _ | l <;> rcases cb with _ | _ <;> simp [List.length_pos]
    · simp [hd]
  refine ⟨main, fun h => ?_⟩
  rcases main.mp h with ⟨hd, hc, l, hl, hne⟩
  subst hd
  refine ⟨by simp [Task.isFinished, Task.DONE], ?_⟩
  simp [Task.isCensored, Task.isFinished, Task.DONE, Task.FAIL, hc]

/-- Witness for C1 at a concrete successful snapshot. -/
theorem task_isSuccess_spec_witness :
    Task.isSuccess ⟨"u-1", "DONE", some [Json.str "img"], none, some false, some 12⟩ = true ∧
    Task.isFinished ⟨"u-1", "DONE", some [Json.str "img"], none, some false, some 12⟩ = true ∧
    Task.isCensored ⟨"u-1", "DONE", some [Json.str "img"], none, some false, some 12⟩ = false := by
  have h := task_isSuccess_spec ⟨"u-1", "DONE", some [Json.str "img"], none, some false, some 12⟩
  have hs : Task.isSuccess ⟨"u-1", "DONE", some [Json.str "img"], none, some false, some 12⟩ = true :=
    h.1.mpr ⟨rfl, by simp, [Json.str "img"], rfl, by simp⟩
  exact ⟨hs, h.2 hs⟩

/-- Claim C2: for every Task snapshot, `isCensored` returns true iff the
snapshot is finished (status `"DONE"` or `"FAIL"`) and the censored flag is
explicitly `true`; a snapshot whose status is neither `"DONE"` nor `"FAIL"`
is never censored, regardless of the flag. -/
theorem task_isCensored_spec (t : Task) :
    (t.isCensored = true ↔ (t.status = "DONE" ∨ t.status = "FAIL") ∧ t.censored = some true) ∧
    (t.status ≠ "DONE" → t.status ≠ "FAIL" → t.isCensored = false) := by
  obtain ⟨u, s, imgs, e, c, g⟩ := t
  constructor
  · simp only [Task.isCensored, Task.isFinished, Task.DONE, Task.FAIL]
    rcases c with _ | cb
    · simp
    · rcases cb with _ | _ <;> simp
  · intro h1 h2
    simp only [Task.status] at h1 h2
    simp [Task.isCensored, Task.isFinished, Task.DONE, Task.FAIL, h1, h2]

/-- Witness for C2 at a concrete unfinished snapshot carrying
`censored: true`. -/
theorem task_isCensored_spec_witness :
    Task.isCensored ⟨"u-2", "PROCESSING", none, none, some true, none⟩ = false :=
  (task_isCensored_spec ⟨"u-2", "PROCESSING", none, none, some true, none⟩).2
    (by simp) (by simp)

/-- Elimination on a successful `Task.createChecked`: each field of the
produced task is determined by the corresponding input field. -/
lemma createChecked_elim (j : Json) (t : Task) (h : Task.createChecked j = .ok t) :
    jStr? (jget j "uuid") = some t.uuid ∧ jStr? (jget j "status") = some t.status ∧
    t.images = taskImagesField j ∧
    t.errorDescription = jStr? (jget j "errorDescription") ∧
    t.censored = jBool? (jget j "censored") ∧
    t.generationTime = jNum? (jget j "generationTime") := by
  unfold Task.createChecked at h
  split at h
  next u s hu hs =>
    injection h with h2
    subst h2
    exact ⟨hu, hs, rfl, rfl, rfl, rfl⟩
  next ou os hne => simp at h

/-- Elimination on a successful `Task.create`. -/
lemma taskCreate_ok_elim (j : Json) (t : Task) (h : Task.create j = .ok t) :
    jStr? (jget j "uuid") = some t.uuid ∧ jStr? (jget j "status") = some t.status ∧
    t.images = taskImagesField j ∧
    t.errorDescription = jStr? (jget j "errorDescription") ∧
    t.censored = jBool? (jget j "censored") ∧
    t.generationTime = jNum? (jget j "generationTime") := by
  cases j with
  | obj fs => exact createChecked_elim _ _ h
  | arr xs => exact createChecked_elim _ _ h
  | null => simp [Task.create] at h
  | bool b => simp [Task.create] at h
  | num n => simp [Task.create] at h
  | str s => simp [Task.create] at h

/-- Claim C3: on a successful generation HTTP exchange, a body that
validates as a Task yields the accepted outcome carrying that task, whose
id equals the body's `uuid` field; a body failing Task validation yields
the rejected outcome whose reason is the serialized body, as a legitimate
outcome rather than a thrown error. -/
theorem generate_outcome_spec (body : Json) :
    (∀ t, Task.create body = .ok t →
        generateOutcome body = .accepted t ∧ jget body "uuid" = some (.str t.uuid)) ∧
    (∀ e, Task.create body = .error e →
        generateOutcome body = .rejected (Json.stringify body)) := by
  constructor
  · intro t h
    refine ⟨by simp [generateOutcome, h], ?_⟩
    have hu := (taskCreate_ok_elim body t h).1
    cases hj : jget body "uuid" with
    | none => rw [hj] at hu; simp [jStr?] at hu
    | some v =>
        rw [hj] at hu
        cases v <;> simp only [jStr?, Option.some.injEq] at hu <;> cases hu
        rfl
  · intro e h
    simp [generateOutcome, h]

/-- Witness for C3: a well-formed body is accepted with the body's uuid,
a body missing `uuid` is rejected with the serialized body as reason. -/
theorem generate_outcome_spec_witness :
    generateOutcome (.obj [("uuid", Json.str "a1b2"), ("status", Json.str "INITIAL")]) =
      .accepted { uuid := "a1b2", status := "INITIAL", images := none,
                  errorDescription := none, censored := none, generationTime := none } ∧
    generateOutcome (.obj [("status", Json.str "INITIAL")]) =
      .rejected (Json.stringify (.obj [("status", Json.str "INITIAL")])) :=
  ⟨((generate_outcome_spec (.obj [("uuid", Json.str "a1b2"), ("status", Json.str "INITIAL")])).1
      _ rfl).1,
   (generate_outcome_spec (.obj [("status", Json.str "INITIAL")])).2
      (taskCreateErrMsg false true) rfl⟩

/-- Claim C7: for every JSON object input in which `uuid` is missing or not
a string, or `status` is missing or not a string, or both, `Task.create`
fails, and the failure message marks each of the two required fields as
found or missing accordingly. -/
theorem taskCreate_failure_message (fs : List (String × Json))
    (h : jStr? (jget (.obj fs) "uuid") = none ∨ jStr? (jget (.obj fs) "status") = none) :
    Task.create (.obj fs) =
      .error (taskCreateErrMsg (jStr? (jget (.obj fs) "uuid")).isSome
        (jStr? (jget (.obj fs) "status")).isSome) := by
  show Task.createChecked (Json.obj fs) = _
  unfold Task.createChecked
  rcases hu : jStr? (jget (Json.obj fs) "uuid") with _ | u <;>
    rcases hs : jStr? (jget (Json.obj fs) "status") with _ | s <;>
      simp only [hu, hs] at h ⊢ <;> try rfl
  rcases h with h | h <;> cases h

/-- Witness for C7 at a body with `uuid` absent and `status` mistyped. -/
theorem taskCreate_failure_message_witness :
    Task.create (.obj [("status", Json.num 5)]) = .error (taskCreateErrMsg false false) :=
  taskCreate_failure_message [("status", Json.num 5)] (Or.inl rfl)

/-- Claim C8 counterexample: `Task.create` does not enforce non-emptiness
of the required string fields: a body with an empty `uuid` string is
accepted and the produced task has an empty id. -/
theorem taskCreate_accepts_empty_uuid :
    Task.create (.obj [("uuid", Json.str ""), ("status", Json.str "")]) =
      .ok { uuid := "", status := "", images := none, errorDescription := none,
            censored := none, generationTime := none } := rfl

/-- Claim C8 (amended): every Task produced by `Task.create` has `id` and
`status` present as strings (possibly empty), and its `images` field, when
present, is a non-empty sequence. -/
theorem taskCreate_images_nonempty (j : Json) (t : Task)
    (h : Task.create j = .ok t) : ∀ l, t.images = some l → 0 < l.length := by
  intro l hl
  have himg := (taskCreate_ok_elim j t h).2.2.1
  rw [himg] at hl
  unfold taskImagesField at hl
  split at hl
  next x xs heq =>
    cases hx : Json.isStr x <;> rw [hx] at hl <;> simp at hl
    simp [← hl]
  next hne => simp at hl

/-- Witness for C8 at a concrete body carrying one image. -/
theorem taskCreate_images_nonempty_witness :
    0 < [Json.str "img"].length :=
  taskCreate_images_nonempty
    (.obj [("uuid", Json.str "u"), ("status", Json.str "DONE"),
           ("images", Json.arr [Json.str "img"])])
    { uuid := "u", status := "DONE", images := some [Json.str "img"],
      errorDescription := none, censored := none, generationTime := none }
    rfl [Json.str "img"] rfl

/-- Claim C10: `Task.create` type-checks only the first element of the
images array: a non-empty array whose element 0 is a string is accepted
verbatim into the task (even when later elements are not strings); an
empty array, a non-array value, or a non-string first element silently
drops the field (absent in the result) rather than causing a failure. -/
theorem taskCreate_images_verbatim (fs : List (String × Json)) (u s : String)
    (hu : jget (.obj fs) "uuid" = some (.str u))
    (hs : jget (.obj fs) "status" = some (.str s)) :
    ∃ t, Task.create (.obj fs) = .ok t ∧
      (∀ x xs, jget (.obj fs) "images" = some (.arr (Json.str x :: xs)) →
          t.images = some (Json.str x :: xs)) ∧
      (∀ v, jget (.obj fs) "images" = some v → (∀ x xs, v ≠ Json.arr (x :: xs)) →
          t.images = none) ∧
      (∀ x xs, jget (.obj fs) "images" = some (.arr (x :: xs)) → x.isStr = false →
          t.images = none) ∧
      (jget (.obj fs) "images" = none → t.images = none) := by
  have hu' : jStr? (jget (Json.obj fs) "uuid") = some u := by rw [hu]; rfl
  have hs' : jStr? (jget (Json.obj fs) "status") = some s := by rw [hs]; rfl
  refine ⟨{ uuid := u, status := s, images := taskImagesField (.obj fs),
            errorDescription := jStr? (jget (.obj fs) "errorDescription"),
            censored := jBool? (jget (.obj fs) "censored"),
            generationTime := jNum? (jget (.obj fs) "generationTime") },
          ?_, ?_, ?_, ?_, ?_⟩
  · show Task.createChecked (Json.obj fs) = _
    unfold Task.createChecked
    rw [hu', hs']
  · intro x xs hi
    show taskImagesField (Json.obj fs) = _
    simp [taskImagesField, hi, Json.isStr]
  · intro v hi hne
    show taskImagesField (Json.obj fs) = none
    simp only [taskImagesField, hi]
    cases v with
    | arr l =>
        cases l with
        | nil => rfl
        | cons x xs => exact absurd rfl (hne x xs)
    | null => rfl
    | bool b => rfl
    | num n => rfl
    | str sv => rfl
    | obj o => rfl
  · intro x xs hi hx
    show taskImagesField (Json.obj fs) = none
    simp [taskImagesField, hi, hx]
  · intro hi
    show taskImagesField (Json.obj fs) = none
    simp [taskImagesField, hi]

/-- Witness for C10 at a body whose images array mixes a string first
element with a non-string second element: the array is kept verbatim. -/
theorem taskCreate_images_verbatim_witness :
    ∃ t, Task.create (.obj [("uuid", Json.str "u"), ("status", Json.str "DONE"),
        ("images", Json.arr [Json.str "a", Json.num 5])]) = .ok t ∧
      t.images = some [Json.str "a", Json.num 5] := by
  obtain ⟨t, hok, hfirst, -, -, -⟩ :=
    taskCreate_images_verbatim
      [("uuid", Json.str "u"), ("status", Json.str "DONE"),
       ("images", Json.arr [Json.str "a", Json.num 5])] "u" "DONE" rfl rfl
  exact ⟨t, hok, hfirst "a" [Json.num 5] rfl⟩

/-- Claim C4: classification of failed HTTP exchanges: 404 on `checkTask`
is `EXPIRED`; 401 on any authenticated operation (`isReady`, `generate`,
`checkTask`, `getModels`) is `UNAUTHORIZED`; 400 on `generate` is
`LONG_PROMPT_OR_BAD_REQUEST`; 415 on `generate` is `UNSUPPORTED_MEDIA`;
every other HTTP or transport failure is `UNEXPECTED`. -/
theorem error_classification (err : AxiosError) :
    (err.response.map AxiosResponse.status = some 404 →
        (checkTaskHandleError err).code = .EXPIRED) ∧
    (err.response.map AxiosResponse.status = some 401 →
        (isReadyHandleError err).code = .UNAUTHORIZED ∧
        (generateHandleError err).code = .UNAUTHORIZED ∧
        (checkTaskHandleError err).code = .UNAUTHORIZED ∧
        (getModelsHandleError err).code = .UNAUTHORIZED) ∧
    (err.response.map AxiosResponse.status = some 400 →
        (generateHandleError err).code = .LONG_PROMPT_OR_BAD_REQUEST) ∧
    (err.response.map AxiosResponse.status = some 415 →
        (generateHandleError err).code = .UNSUPPORTED_MEDIA) ∧
    (err.response.map AxiosResponse.status ≠ some 400 →
     err.response.map AxiosResponse.status ≠ some 401 →
     err.response.map AxiosResponse.status ≠ some 415 →
        (generateHandleError err).code = .UNEXPECTED) ∧
    (err.response.map AxiosResponse.status ≠ some 401 →
     err.response.map AxiosResponse.status ≠ some 404 →
        (checkTaskHandleError err).code = .UNEXPECTED) ∧
    (err.response.map AxiosResponse.status ≠ some 401 →
        (isReadyHandleError err).code = .UNEXPECTED ∧
        (getModelsHandleError err).code = .UNEXPECTED) ∧
    (getStylesHandleError err).code = .UNEXPECTED := by
  rcases herr : err.response with _ | r
  · simp [generateHandleError, checkTaskHandleError, isReadyHandleError,
      getModelsHandleError, getStylesHandleError, FusionBrainError.unexpected,
      herr]
  by_cases h400 : r.status = 400
  · simp [generateHandleError, checkTaskHandleError, isReadyHandleError,
      getModelsHandleError, getStylesHandleError, FusionBrainError.unexpected,
      FusionBrainError.tooLongPromptsOrBadRequest, herr, h400]
  by_cases h401 : r.status = 401
  · simp [generateHandleError, checkTaskHandleError, isReadyHandleError,
      getModelsHandleError, getStylesHandleError, FusionBrainError.unexpected,
      FusionBrainError.unauthorized, herr, h400, h401]
  by_cases h404 : r.status = 404
  · simp [generateHandleError, checkTaskHandleError, isReadyHandleError,
      getModelsHandleError, getStylesHandleError, FusionBrainError.unexpected,
      FusionBrainError.taskExpired, herr, h400, h401, h404]
  by_cases h415 : r.status = 415
  · simp [generateHandleError, checkTaskHandleError, isReadyHandleError,
      getModelsHandleError, getStylesHandleError, FusionBrainError.unexpected,
      FusionBrainError.unsupportedMedia, herr, h400, h401, h404, h415]
  · simp [generateHandleError, checkTaskHandleError, isReadyHandleError,
      getModelsHandleError, getStylesHandleError, FusionBrainError.unexpected,
      herr, h400, h401, h404, h415]

/-- Witness for C4 at concrete transport errors for each classified case. -/
theorem error_classification_witness :
    (checkTaskHandleError (sampleAxiosError (some 404))).code = .EXPIRED ∧
    (generateHandleError (sampleAxiosError (some 401))).code = .UNAUTHORIZED ∧
    (getModelsHandleError (sampleAxiosError (some 401))).code = .UNAUTHORIZED ∧
    (generateHandleError (sampleAxiosError (some 400))).code = .LONG_PROMPT_OR_BAD_REQUEST ∧
    (generateHandleError (sampleAxiosError (some 415))).code = .UNSUPPORTED_MEDIA ∧
    (generateHandleError (sampleAxiosError none)).code = .UNEXPECTED ∧
    (getStylesHandleError (sampleAxiosError (some 500))).code = .UNEXPECTED :=
  ⟨(error_classification (sampleAxiosError (some 404))).1 rfl,
   ((error_classification (sampleAxiosError (some 401))).2.1 rfl).2.1,
   ((error_classification (sampleAxiosError (some 401))).2.1 rfl).2.2.2,
   (error_classification (sampleAxiosError (some 400))).2.2.1 rfl,
   (error_classification (sampleAxiosError (some 415))).2.2.2.1 rfl,
   (error_classification (sampleAxiosError none)).2.2.2.2.1
     (by simp [sampleAxiosError]) (by simp [sampleAxiosError]) (by simp [sampleAxiosError]),
   (error_classification (sampleAxiosError (some 500))).2.2.2.2.2.2.2⟩

/-- Claim C5 (code slip): the classified errors raised by `getModels` and
`getStyles` do not carry the name of the originating operation — the
source passes the literal `"FusionBrain.checkModel"` in both catch
blocks, so the messages start with that name instead. -/
theorem getModels_getStyles_misattributed :
    strPfx "FusionBrain.checkModel"
        (getModelsHandleError (sampleAxiosError (some 401))).message = true ∧
    strPfx "FusionBrain.getModels"
        (getModelsHandleError (sampleAxiosError (some 401))).message = false ∧
    strPfx "FusionBrain.checkModel"
        (getStylesHandleError (sampleAxiosError (some 500))).message = true ∧
    strPfx "FusionBrain.getStyles"
        (getStylesHandleError (sampleAxiosError (some 500))).message = false ∧
    (getModelsHandleError (sampleAxiosError (some 401))).code = .UNAUTHORIZED ∧
    (getStylesHandleError (sampleAxiosError (some 500))).code = .UNEXPECTED := by
  refine ⟨?_, ?_, ?_, ?_, rfl, rfl⟩ <;> decide

/-- Claim C6 (code slip): `ModelInfo.create` validates the input's
`version` key but then reads `jsonObject.number` into the `version`
attribute; on a well-formed input without a `number` key, validation
succeeds yet the produced entry's version is `undefined` rather than the
value of the input's `version` key. -/
theorem modelInfo_version_read_from_number :
    ModelInfo.create (.obj [("id", Json.num 4), ("name", Json.str "Kandinsky"),
        ("version", Json.num 3), ("type", Json.str "TEXT2IMAGE")]) =
      .ok { id := 4, name := "Kandinsky", version := none, type := "TEXT2IMAGE" } ∧
    jget (.obj [("id", Json.num 4), ("name", Json.str "Kandinsky"),
        ("version", Json.num 3), ("type", Json.str "TEXT2IMAGE")]) "version" =
      some (Json.num 3) :=
  ⟨rfl, rfl⟩

/-- Claim C9: readiness check: with strict mode off, `{status:"ACTIVE"}`
and `{model_status:"ACTIVE"}` both yield true; a payload with no ACTIVE
status string yields false without throwing; with strict mode on, such a
payload fails with kind `MODEL_NOT_READY` carrying the serialized input
payload as body. -/
theorem isReady_spec :
    (∀ vf, isReadyOutcome (.obj [("status", Json.str "ACTIVE")]) vf = .result true) ∧
    (∀ vf, isReadyOutcome (.obj [("model_status", Json.str "ACTIVE")]) vf = .result true) ∧
    (∀ fs, statusActive (.obj fs) = false → modelStatusActive (.obj fs) = false →
        isReadyOutcome (.obj fs) false = .result false ∧
        isReadyOutcome (.obj fs) true =
          .fbError (FusionBrainError.modelNotReady "FusionBrain.checkModel"
            (Json.stringify (.obj fs))) ∧
        (FusionBrainError.modelNotReady "FusionBrain.checkModel"
            (Json.stringify (.obj fs))).code = .MODEL_NOT_READY ∧
        (FusionBrainError.modelNotReady "FusionBrain.checkModel"
            (Json.stringify (.obj fs))).body = some (Json.stringify (.obj fs))) := by
  refine ⟨fun vf => rfl, fun vf => rfl, fun fs h1 h2 => ⟨?_, ?_, rfl, rfl⟩⟩
  · simp [isReadyOutcome, isReadyCore, h1, h2]
  · simp [isReadyOutcome, isReadyCore, h1, h2]

/-- Witness for C9 at a concrete non-ACTIVE payload. -/
theorem isReady_spec_witness :
    isReadyOutcome (.obj [("status", Json.str "DISABLED_BY_QUEUE")]) false = .result false ∧
    isReadyOutcome (.obj [("status", Json.str "DISABLED_BY_QUEUE")]) true =
      .fbError (FusionBrainError.modelNotReady "FusionBrain.checkModel"
        (Json.stringify (.obj [("status", Json.str "DISABLED_BY_QUEUE")]))) :=
  ⟨(isReady_spec.2.2 [("status", Json.str "DISABLED_BY_QUEUE")] rfl rfl).1,
   (isReady_spec.2.2 [("status", Json.str "DISABLED_BY_QUEUE")] rfl rfl).2.1⟩

end FusionBrainApi
